import Mathlib

/-!
Verification development for the radar presence-detection firmware
(`radar_task.c`, `radar_terminal_ui.c`).  The two C translation units are
embedded shallowly: every externally observable step of the firmware
(GPIO writes, mutex operations, UART bytes, engine calls, console prints,
fatal halts) is an `Action`, and each C function is translated to a pure
Lean function from its inputs and an environment of external-call results
to the list of actions it performs.  The vendor sensing library, the HAL
and the RTOS are opaque externals: their return codes are inputs of the
embedding, exactly as the C code only branches on those codes.
-/

namespace RadarPresence

/-- The result type `cy_rslt_t`: `0` is `CY_RSLT_SUCCESS`, every other
value is some error code. -/
abbrev cy_rslt_t := Nat

/-- `CY_RSLT_SUCCESS`. -/
def CY_RSLT_SUCCESS : cy_rslt_t := 0

/-- `MTB_RADAR_SENSING_SUCCESS`: the vendor library's success code, which is
the zero success result like `CY_RSLT_SUCCESS`. -/
def MTB_RADAR_SENSING_SUCCESS : cy_rslt_t := 0

/-- `CY_RTOS_NEVER_TIMEOUT` (wait forever), the all-ones 32-bit value. -/
def CY_RTOS_NEVER_TIMEOUT : Nat := 4294967295

/-- `LED_STATE_OFF (0U)` from radar_task.c. -/
def LED_STATE_OFF : Nat := 0

/-- `LED_STATE_ON (1U)` from radar_task.c. -/
def LED_STATE_ON : Nat := 1

/-- `SPI_FREQUENCY (25000000UL)` from radar_task.c. -/
def SPI_FREQUENCY : Nat := 25000000

/-- The GPIO pins the two translation units touch: the three RGB LED pins
(`LED_RGB_RED`/`GREEN`/`BLUE`, i.e. `CYBSP_GPIOA0..A2`) and the radar
control lines initialized in `radar_task`. -/
inductive Pin where
  | red
  | green
  | blue
  | reset
  | ldo_en
  | irq
  | spi_cs
deriving DecidableEq, Repr

/-- One console line.  `printf` calls that print fixed text are `text`;
the two event prints of `radar_sensing_callback` carry the numeric values
the format string `"%.3f: Presence IN %.2f-%.2f\n"` (resp.
`"%.3f: Presence OUT\n"`) renders: the timestamp in seconds and the two
interval endpoints in meters.  The C `float` arithmetic is embedded as
exact rational arithmetic. -/
inductive ConsoleLine where
  | text (s : String)
  | presence_in (ts lo hi : ℚ)
  | presence_out (ts : ℚ)
deriving DecidableEq, Repr

/-- An externally observable step of the firmware.  Calls into the opaque
externals record the result code the environment returned for them. -/
inductive Action where
  | init_mutex (r : cy_rslt_t)
  | gpio_init (pin : Pin) (value : Nat) (r : cy_rslt_t)
  | gpio_write (pin : Pin) (value : Nat)
  | spi_init (r : cy_rslt_t)
  | spi_set_frequency (hz : Nat) (r : cy_rslt_t)
  | sensing_init (r : cy_rslt_t)
  | register_callback (r : cy_rslt_t)
  | set_parameter (name value : String) (r : cy_rslt_t)
  | get_parameter (name value : String)
  | enable (r : cy_rslt_t)
  | process (timestamp : Nat) (r : cy_rslt_t)
  | delay (ms : Nat)
  | mutex_get (timeout_ms : Nat) (r : cy_rslt_t)
  | mutex_release
  | uart_get (b : Nat)
  | uart_put (b : Nat)
  | print (line : ConsoleLine)
  | halt
deriving DecidableEq, Repr

/-- `mtb_radar_sensing_event_t`: the two presence events the callback
switches on, the counter events of the same vendor enum, and `other n`
standing for any further enumerator (the callback's `default:` branch
treats all of these alike). -/
inductive mtb_radar_sensing_event_t where
  | presence_in
  | presence_out
  | counter_occupied
  | counter_free
  | other (n : Nat)
deriving DecidableEq, Repr

/-- `mtb_radar_sensing_event_info_t` together with the fields of the
`mtb_radar_sensing_presence_event_info_t` the callback casts it to:
`timestamp` in milliseconds, `distance` and `accuracy` in meters. -/
structure mtb_radar_sensing_event_info_t where
  timestamp : Nat
  distance : ℚ
  accuracy : ℚ
deriving DecidableEq, Repr

/-- `radar_sensing_callback` from radar_task.c.  `mutex_get_r` is the
result the RTOS returns for the single zero-timeout
`radar_presence_terminal_mutex_get(0)` attempt of the event (unused when
the event performs no attempt). -/
def radar_sensing_callback (event : mtb_radar_sensing_event_t)
    (event_info : mtb_radar_sensing_event_info_t) (mutex_get_r : cy_rslt_t) :
    List Action :=
  match event with
  | .presence_in =>
      [.gpio_write .red LED_STATE_ON, .gpio_write .green LED_STATE_OFF,
       .mutex_get 0 mutex_get_r] ++
      (if mutex_get_r = CY_RSLT_SUCCESS then
        [.print (.presence_in ((event_info.timestamp : ℚ) / 1000)
            (event_info.distance - event_info.accuracy)
            (event_info.distance + event_info.accuracy)),
         .mutex_release]
      else [])
  | .presence_out =>
      [.gpio_write .red LED_STATE_OFF, .gpio_write .green LED_STATE_ON,
       .mutex_get 0 mutex_get_r] ++
      (if mutex_get_r = CY_RSLT_SUCCESS then
        [.print (.presence_out ((event_info.timestamp : ℚ) / 1000)),
         .mutex_release]
      else [])
  | _ => []

/-- The state of the three LED output pins. -/
structure GpioState where
  red : Nat
  green : Nat
  blue : Nat
deriving DecidableEq, Repr

/-- Apply one action to the LED state: `cyhal_gpio_write` on an LED pin
updates it, every other action leaves it unchanged. -/
def gpio_apply (s : GpioState) : Action → GpioState
  | .gpio_write .red v => { s with red := v }
  | .gpio_write .green v => { s with green := v }
  | .gpio_write .blue v => { s with blue := v }
  | _ => s

/-- Run a whole action trace over the LED state. -/
def gpio_run (s : GpioState) (acts : List Action) : GpioState :=
  acts.foldl gpio_apply s

/-- The console lines printed along a trace, in order. -/
def console_lines (acts : List Action) : List ConsoleLine :=
  acts.filterMap fun a =>
    match a with
    | .print l => some l
    | _ => none

/-- An action never blocks on the console mutex: any mutex acquire in it
uses a zero timeout. -/
def nonblocking (a : Action) : Bool :=
  match a with
  | .mutex_get t _ => t == 0
  | _ => true

/-- Net change an action makes to the number of outstanding console-mutex
holds: a successful acquire adds one, a release removes one. -/
def mutex_held_delta (a : Action) : Int :=
  match a with
  | .mutex_get _ r => if r = CY_RSLT_SUCCESS then 1 else 0
  | .mutex_release => -1
  | _ => 0

/-- Net number of console-mutex holds still outstanding after a trace. -/
def mutex_outstanding (acts : List Action) : Int :=
  (acts.map mutex_held_delta).sum

/-- C `isspace` over a byte value: the space character and the five
control whitespace characters 9..13 (tab, line feed, vertical tab, form
feed, carriage return). -/
def isspace (b : Nat) : Bool :=
  b == 32 || (9 ≤ b && b ≤ 13)

/-- `radar_presence_task_set_mute` from radar_task.c: muting acquires the
console mutex with an infinite timeout (so the acquire succeeds, possibly
after waiting), unmuting releases it. -/
def radar_presence_task_set_mute (mute : Bool) : List Action :=
  if mute then [.mutex_get CY_RTOS_NEVER_TIMEOUT CY_RSLT_SUCCESS]
  else [.mutex_release]

/-- `IFX_RADAR_SENSING_VALUE_MAXLENGTH 256` from radar_terminal_ui.c. -/
def IFX_RADAR_SENSING_VALUE_MAXLENGTH : Int := 256

/-- Output of the read loop of `terminal_ui_readline`: the bytes read
from the UART in order, the buffer writes `line[i] = b` performed (index
and byte, in order), the bytes echoed back, and the final value of `i`. -/
structure ReadlineLoopOut where
  consumed : List Nat
  stores : List (Nat × Nat)
  echoed : List Nat
  finalI : Nat
deriving DecidableEq, Repr

/-- The `while ((rx_value != 13) && (--maxlength > 0))` loop of
`terminal_ui_readline` (13 is the carriage return).  `input k` is the
byte the blocking `cyhal_uart_getc` returns on its `k`-th call, `pos` the
number of bytes already consumed, `i` the C variable `i`, `rx` the
current `rx_value`, and `maxlength` the current budget counter,
decremented before the `> 0` test exactly as in the C guard (so the body
runs only when the value on entry is at least 2). -/
def terminal_ui_readline_loop (input : Nat → Nat) (pos i rx maxlength : Nat) :
    ReadlineLoopOut :=
  match maxlength with
  | m + 2 =>
    if rx = 13 then ⟨[], [], [], i⟩
    else
      let b := input pos
      if isspace b then
        let r := terminal_ui_readline_loop input (pos + 1) i b (m + 1)
        ⟨b :: r.consumed, r.stores, b :: r.echoed, r.finalI⟩
      else
        let r := terminal_ui_readline_loop input (pos + 1) (i + 1) b (m + 1)
        ⟨b :: r.consumed, (i, b) :: r.stores, b :: r.echoed, r.finalI⟩
  | _ => ⟨[], [], [], i⟩

/-- Result of `terminal_ui_readline`: the action trace (mute, UART reads
and echoes, trailing newline, unmute), the buffer writes performed
(including the final null terminator), and the bytes consumed. -/
structure ReadlineOut where
  actions : List Action
  stores : List (Nat × Nat)
  consumed : List Nat
deriving DecidableEq, Repr

/-- `terminal_ui_readline` from radar_terminal_ui.c.  The early return on
`maxlength <= 0` happens after the mute and skips the unmute, the
trailing newline and the null terminator, exactly as in the source. -/
def terminal_ui_readline (input : Nat → Nat) (maxlength : Int) : ReadlineOut :=
  let muteActs := radar_presence_task_set_mute true
  if maxlength ≤ 0 then ⟨muteActs, [], []⟩
  else
    let r := terminal_ui_readline_loop input 0 0 0 maxlength.toNat
    { actions := muteActs ++
        (r.consumed.flatMap fun b => [.uart_get b, .uart_put b]) ++
        [.uart_put 10] ++ radar_presence_task_set_mute false,
      stores := r.stores ++ [(r.finalI, 0)],
      consumed := r.consumed }

/-- The C string a caller reads out of the buffer after
`terminal_ui_readline`: the bytes stored before the null terminator. -/
def ReadlineOut.value (o : ReadlineOut) : List Nat :=
  o.stores.dropLast.map Prod.snd

/-- View a byte list as the `String` the C code passes around. -/
def bytesToString (l : List Nat) : String :=
  String.mk (l.map Char.ofNat)

/-- Environment of the terminal UI: the value the engine returns for a
`get_parameter` call and the status it returns for a `set_parameter`
call. -/
structure UiEnv where
  get_parameter_v : String → String
  set_parameter_r : String → String → cy_rslt_t

/-- `terminal_ui_menu` from radar_terminal_ui.c: mute, print the menu
with the two current parameter values, unmute. -/
def terminal_ui_menu (env : UiEnv) : List Action :=
  let v1 := env.get_parameter_v "radar_presence_range_max"
  let v2 := env.get_parameter_v "radar_presence_sensitivity"
  radar_presence_task_set_mute true ++
  [.print (.text "Select a setting to configure"),
   .get_parameter "radar_presence_range_max" v1,
   .print (.text ("'r': Set presence max range (" ++ v1 ++ ")")),
   .get_parameter "radar_presence_sensitivity" v2,
   .print (.text ("'s': Set sensitivity (" ++ v2 ++ ")")),
   .print (.text "")] ++
  radar_presence_task_set_mute false

/-- `terminal_ui_info` from radar_terminal_ui.c. -/
def terminal_ui_info : List Action :=
  [.print (.text "Press '?' to list all radar presence settings")]

/-- `terminal_ui_print_result` from radar_terminal_ui.c: the `switch`
prints OK exactly on `MTB_RADAR_SENSING_SUCCESS` and ERROR on every other
status. -/
def terminal_ui_print_result (result : cy_rslt_t) : List Action :=
  if result = MTB_RADAR_SENSING_SUCCESS then [.print (.text "OK")]
  else [.print (.text "ERROR")]

/-- One iteration of the `radar_presence_terminal_ui` while-loop after a
successful `cyhal_uart_getc`: read the key at stream position `pos`,
dispatch on it, and return the actions together with the next stream
position (the line editor consumes further bytes of the same UART
stream). -/
def radar_presence_terminal_ui_step (env : UiEnv) (input : Nat → Nat)
    (pos : Nat) : List Action × Nat :=
  let rx := input pos
  if rx = 63 then
    (.uart_get rx :: terminal_ui_menu env, pos + 1)
  else if rx = 114 then
    let ro := terminal_ui_readline (fun k => input (pos + 1 + k))
      IFX_RADAR_SENSING_VALUE_MAXLENGTH
    let v := bytesToString ro.value
    let r := env.set_parameter_r "radar_presence_range_max" v
    (.uart_get rx ::
       .print (.text "Enter range [0.66-10.2]m, press enter") ::
       (ro.actions ++ [.set_parameter "radar_presence_range_max" v r] ++
        terminal_ui_print_result r),
     pos + 1 + ro.consumed.length)
  else if rx = 115 then
    let ro := terminal_ui_readline (fun k => input (pos + 1 + k))
      IFX_RADAR_SENSING_VALUE_MAXLENGTH
    let v := bytesToString ro.value
    let r := env.set_parameter_r "radar_presence_sensitivity" v
    (.uart_get rx ::
       .print (.text "Set Sensitivity: 'high', 'medium' or 'low'") ::
       (ro.actions ++ [.set_parameter "radar_presence_sensitivity" v r] ++
        terminal_ui_print_result r),
     pos + 1 + ro.consumed.length)
  else
    (.uart_get rx :: terminal_ui_info, pos + 1)

/-- The `radar_presence_terminal_ui` while-loop, truncated to `fuel`
iterations in which `cyhal_uart_getc` reports success (the loop only
exits, printing a farewell, when the UART read starts failing — a regime
outside all the claims). -/
def radar_presence_terminal_ui_loop (env : UiEnv) (input : Nat → Nat)
    (pos fuel : Nat) : List Action :=
  match fuel with
  | 0 => []
  | fuel + 1 =>
    let (acts, pos') := radar_presence_terminal_ui_step env input pos
    acts ++ radar_presence_terminal_ui_loop env input pos' fuel

/-- `radar_presence_terminal_ui`: the initial menu print, then the
command loop. -/
def radar_presence_terminal_ui (env : UiEnv) (input : Nat → Nat)
    (fuel : Nat) : List Action :=
  terminal_ui_menu env ++ radar_presence_terminal_ui_loop env input 0 fuel

/-- Results the externals return to `radar_task`, one field per call
site, with `gpio_init_r` indexed by pin and `process_r` by loop
iteration. -/
structure RadarEnv where
  init_mutex_r : cy_rslt_t
  gpio_init_r : Pin → cy_rslt_t
  spi_init_r : cy_rslt_t
  spi_set_frequency_r : cy_rslt_t
  sensing_init_r : cy_rslt_t
  register_callback_r : cy_rslt_t
  set_parameter_r : String → String → cy_rslt_t
  enable_r : cy_rslt_t
  process_r : Nat → cy_rslt_t

/-- The `for (;;)` processing loop of `radar_task`, truncated to `fuel`
iterations.  `k` numbers the `mtb_radar_sensing_process` calls; the
monotonic tick time passed to the k-th call is abstracted as `k`.  After
each successful call the task delays `MTB_RADAR_SENSING_PROCESS_DELAY`
(2 ms); a failing call prints the diagnostic and hits `CY_ASSERT(0)`. -/
def radar_task_loop (env : RadarEnv) (k fuel : Nat) : List Action :=
  match fuel with
  | 0 => []
  | fuel + 1 =>
    .process k (env.process_r k) ::
    (if env.process_r k ≠ MTB_RADAR_SENSING_SUCCESS then
      [.print (.text "ifx_radar_sensing_process error"), .halt]
    else
      .delay 2 :: radar_task_loop env (k + 1) fuel)

/-- `radar_task` from radar_task.c: the bring-up sequence with its fatal
`CY_ASSERT(0)` halts, then the processing loop.  A `CY_ASSERT(0)` stops
the task, so the trace ends at the `halt`.  The four radar control-line
inits (reset, LDO enable, IRQ, chip select) have their results ignored by
the source, and so does this embedding. -/
def radar_task (env : RadarEnv) (fuel : Nat) : List Action :=
  .init_mutex env.init_mutex_r ::
  (if env.init_mutex_r ≠ CY_RSLT_SUCCESS then [.halt] else
  .gpio_init .red LED_STATE_OFF (env.gpio_init_r .red) ::
  (if env.gpio_init_r .red ≠ CY_RSLT_SUCCESS then [.halt] else
  .gpio_init .green LED_STATE_OFF (env.gpio_init_r .green) ::
  (if env.gpio_init_r .green ≠ CY_RSLT_SUCCESS then [.halt] else
  .gpio_init .blue LED_STATE_OFF (env.gpio_init_r .blue) ::
  (if env.gpio_init_r .blue ≠ CY_RSLT_SUCCESS then [.halt] else
  .gpio_init .reset 1 (env.gpio_init_r .reset) ::
  .gpio_init .ldo_en 1 (env.gpio_init_r .ldo_en) ::
  .gpio_init .irq 0 (env.gpio_init_r .irq) ::
  .gpio_init .spi_cs 1 (env.gpio_init_r .spi_cs) ::
  .spi_init env.spi_init_r ::
  (if env.spi_init_r ≠ CY_RSLT_SUCCESS then [.halt] else
  .spi_set_frequency SPI_FREQUENCY env.spi_set_frequency_r ::
  (if env.spi_set_frequency_r ≠ CY_RSLT_SUCCESS then [.halt] else
  .sensing_init env.sensing_init_r ::
  (if env.sensing_init_r ≠ MTB_RADAR_SENSING_SUCCESS then
    [.print (.text "ifx_radar_sensing_init error - Radar Wingboard not connected?"),
     .halt]
  else
  .register_callback env.register_callback_r ::
  (if env.register_callback_r ≠ MTB_RADAR_SENSING_SUCCESS then [.halt] else
  .set_parameter "radar_presence_range_max" "1.0"
    (env.set_parameter_r "radar_presence_range_max" "1.0") ::
  (if env.set_parameter_r "radar_presence_range_max" "1.0" ≠
      MTB_RADAR_SENSING_SUCCESS then [.halt] else
  .set_parameter "radar_presence_sensitivity" "medium"
    (env.set_parameter_r "radar_presence_sensitivity" "medium") ::
  (if env.set_parameter_r "radar_presence_sensitivity" "medium" ≠
      MTB_RADAR_SENSING_SUCCESS then [.halt] else
  .enable env.enable_r ::
  (if env.enable_r ≠ MTB_RADAR_SENSING_SUCCESS then [.halt] else
  radar_task_loop env 0 fuel)))))))))))

/-- All checked bring-up results and the first `fuel` process results
succeed: the condition under which `radar_task` never halts. -/
def radar_task_ok (env : RadarEnv) (fuel : Nat) : Bool :=
  env.init_mutex_r == 0 && env.gpio_init_r .red == 0 &&
  env.gpio_init_r .green == 0 && env.gpio_init_r .blue == 0 &&
  env.spi_init_r == 0 && env.spi_set_frequency_r == 0 &&
  env.sensing_init_r == 0 && env.register_callback_r == 0 &&
  env.set_parameter_r "radar_presence_range_max" "1.0" == 0 &&
  env.set_parameter_r "radar_presence_sensitivity" "medium" == 0 &&
  env.enable_r == 0 &&
  (List.range fuel).all fun k => env.process_r k == 0

/-- Recognizes the engine-init action, for counting retries. -/
def is_sensing_init : Action → Bool
  | .sensing_init _ => true
  | _ => false

/-- Recognizes the callback-registration action. -/
def is_register_callback : Action → Bool
  | .register_callback _ => true
  | _ => false

/-- Recognizes a set-parameter action on the given parameter name. -/
def is_set_parameter (name : String) : Action → Bool
  | .set_parameter n _ _ => n == name
  | _ => false

/-- Recognizes the enable action. -/
def is_enable : Action → Bool
  | .enable _ => true
  | _ => false

/-- Recognizes the SPI-configuration action. -/
def is_spi_init : Action → Bool
  | .spi_init _ => true
  | _ => false

/-- A loop entered with `rx_value = 13` (carriage return) exits at once
without reading anything. -/
theorem terminal_ui_readline_loop_cr (input : Nat → Nat)
    (pos i maxlength : Nat) :
    terminal_ui_readline_loop input pos i 13 maxlength = ⟨[], [], [], i⟩ := by
  match maxlength with
  | 0 => rfl
  | 1 => rfl
  | m + 2 => simp [terminal_ui_readline_loop]

/-- The loop echoes exactly the bytes it consumes, in order. -/
theorem terminal_ui_readline_loop_echoed (input : Nat → Nat) :
    ∀ maxlength pos i rx,
      (terminal_ui_readline_loop input pos i rx maxlength).echoed =
        (terminal_ui_readline_loop input pos i rx maxlength).consumed := by
  intro maxlength
  induction maxlength using Nat.strong_induction_on with
  | _ m ih =>
    intro pos i rx
    match m with
    | 0 => rfl
    | 1 => rfl
    | m + 2 =>
      by_cases h : rx = 13
      · simp [terminal_ui_readline_loop, h]
      · by_cases hs : isspace (input pos) <;>
          simp [terminal_ui_readline_loop, h, hs, ih (m + 1) (by omega)]

/-- The loop's buffer writes are exactly the non-whitespace bytes it
consumed, in order, at the consecutive indices starting at the entry
value of `i`; the final `i` is the entry value plus their number. -/
theorem terminal_ui_readline_loop_stores (input : Nat → Nat) :
    ∀ maxlength pos i rx,
      (terminal_ui_readline_loop input pos i rx maxlength).stores.map Prod.snd =
        (terminal_ui_readline_loop input pos i rx maxlength).consumed.filter
          (fun b => !isspace b) ∧
      (terminal_ui_readline_loop input pos i rx maxlength).stores.map Prod.fst =
        List.range' i ((terminal_ui_readline_loop input pos i rx maxlength).consumed.filter
          (fun b => !isspace b)).length ∧
      (terminal_ui_readline_loop input pos i rx maxlength).finalI =
        i + ((terminal_ui_readline_loop input pos i rx maxlength).consumed.filter
          (fun b => !isspace b)).length := by
  intro maxlength
  induction maxlength using Nat.strong_induction_on with
  | _ m ih =>
    intro pos i rx
    match m with
    | 0 => exact ⟨rfl, rfl, rfl⟩
    | 1 => exact ⟨rfl, rfl, rfl⟩
    | m + 2 =>
      by_cases h : rx = 13
      · simp [terminal_ui_readline_loop, h]
      · by_cases hs : isspace (input pos)
        · obtain ⟨ih1, ih2, ih3⟩ := ih (m + 1) (by omega) (pos + 1) i (input pos)
          simp [terminal_ui_readline_loop, h, hs, ih1, ih2, ih3]
        · obtain ⟨ih1, ih2, ih3⟩ := ih (m + 1) (by omega) (pos + 1) (i + 1)
            (input pos)
          refine ⟨?_, ?_, ?_⟩ <;>
            simp [terminal_ui_readline_loop, h, hs, ih1, ih2, ih3,
              List.range'_succ] <;> omega

/-- The loop reads at most `maxlength − 1` bytes. -/
theorem terminal_ui_readline_loop_length (input : Nat → Nat) :
    ∀ maxlength pos i rx,
      (terminal_ui_readline_loop input pos i rx maxlength).consumed.length ≤
        maxlength - 1 := by
  intro maxlength
  induction maxlength using Nat.strong_induction_on with
  | _ m ih =>
    intro pos i rx
    match m with
    | 0 => simp [terminal_ui_readline_loop]
    | 1 => simp [terminal_ui_readline_loop]
    | m + 2 =>
      by_cases h : rx = 13
      · simp [terminal_ui_readline_loop, h]
      · by_cases hs : isspace (input pos)
        · have hrec := ih (m + 1) (by omega) (pos + 1) i (input pos)
          simp [terminal_ui_readline_loop, h, hs]
          omega
        · have hrec := ih (m + 1) (by omega) (pos + 1) (i + 1) (input pos)
          simp [terminal_ui_readline_loop, h, hs]
          omega

/-- Reading stops at the first carriage return: no byte strictly before
the last consumed one is a carriage return. -/
theorem terminal_ui_readline_loop_no_cr (input : Nat → Nat) :
    ∀ maxlength pos i rx x,
      x ∈ (terminal_ui_readline_loop input pos i rx maxlength).consumed.dropLast →
        x ≠ 13 := by
  intro maxlength
  induction maxlength using Nat.strong_induction_on with
  | _ m ih =>
    intro pos i rx x hx
    match m with
    | 0 => simp [terminal_ui_readline_loop] at hx
    | 1 => simp [terminal_ui_readline_loop] at hx
    | m + 2 =>
      by_cases h : rx = 13
      · simp [terminal_ui_readline_loop, h] at hx
      · have hcons :
            (terminal_ui_readline_loop input pos i rx (m + 2)).consumed =
              input pos :: (terminal_ui_readline_loop input (pos + 1)
                (if isspace (input pos) then i else i + 1) (input pos)
                (m + 1)).consumed := by
          by_cases hs : isspace (input pos) <;>
            simp [terminal_ui_readline_loop, h, hs]
        by_cases hnil : (terminal_ui_readline_loop input (pos + 1)
            (if isspace (input pos) then i else i + 1) (input pos)
            (m + 1)).consumed = []
        · rw [hcons, hnil] at hx
          simp at hx
        · rw [hcons, List.dropLast_cons_of_ne_nil hnil] at hx
          rcases List.mem_cons.mp hx with hx | hx
          · subst hx
            intro h13
            apply hnil
            rw [h13]
            simp [terminal_ui_readline_loop_cr]
          · exact ih (m + 1) (by omega) (pos + 1)
              (if isspace (input pos) then i else i + 1) (input pos) x hx

/-- C3: feeding the bytes of "1.5" then carriage return through the line
editor stores exactly "1.5" with a null terminator and echoes every byte
plus a trailing newline; and for every input stream and positive
maxlength, every consumed byte is echoed back in order with a trailing
newline, the buffer receives exactly the non-whitespace consumed bytes in
order at consecutive indices followed by the null terminator, and no byte
strictly before the last consumed one is a carriage return (reading stops
at the first carriage return). -/
theorem terminal_ui_readline_line_edit :
    (terminal_ui_readline (fun k => [49, 46, 53, 13].getD k 0) 256).stores =
      [(0, 49), (1, 46), (2, 53), (3, 0)] ∧
    bytesToString
      ((terminal_ui_readline (fun k => [49, 46, 53, 13].getD k 0) 256).value) =
      "1.5" ∧
    (terminal_ui_readline (fun k => [49, 46, 53, 13].getD k 0) 256).actions =
      [.mutex_get CY_RTOS_NEVER_TIMEOUT CY_RSLT_SUCCESS,
       .uart_get 49, .uart_put 49, .uart_get 46, .uart_put 46,
       .uart_get 53, .uart_put 53, .uart_get 13, .uart_put 13,
       .uart_put 10, .mutex_release] ∧
    ∀ (input : Nat → Nat) (m : Int), 0 < m →
      ((terminal_ui_readline input m).actions =
        radar_presence_task_set_mute true ++
        ((terminal_ui_readline input m).consumed.flatMap fun b =>
          [.uart_get b, .uart_put b]) ++
        [.uart_put 10] ++ radar_presence_task_set_mute false) ∧
      ((terminal_ui_readline input m).stores.map Prod.snd =
        (terminal_ui_readline input m).consumed.filter (fun b => !isspace b) ++
          [0]) ∧
      ((terminal_ui_readline input m).stores.map Prod.fst =
        List.range
          (((terminal_ui_readline input m).consumed.filter
            (fun b => !isspace b)).length + 1)) ∧
      ∀ x ∈ (terminal_ui_readline input m).consumed.dropLast, x ≠ 13 := by
  refine ⟨by decide, by decide, by decide, ?_⟩
  intro input m hm
  have hm' : ¬ m ≤ 0 := by omega
  obtain ⟨h1, h2, h3⟩ := terminal_ui_readline_loop_stores input m.toNat 0 0 0
  refine ⟨?_, ?_, ?_, ?_⟩
  · simp [terminal_ui_readline, hm']
  · simp [terminal_ui_readline, hm', h1]
  · simp [terminal_ui_readline, hm', h2, h3, List.range_succ,
      List.range_eq_range']
  · intro x hx
    simp only [terminal_ui_readline, hm', if_false, ite_false] at hx
    exact terminal_ui_readline_loop_no_cr input m.toNat 0 0 0 x hx

/-- Witness for C3's general clauses at the constant stream of the
byte 50 and maxlength 3. -/
theorem terminal_ui_readline_line_edit_witness :
    ((terminal_ui_readline (fun _ => 50) 3).actions =
      radar_presence_task_set_mute true ++
      ((terminal_ui_readline (fun _ => 50) 3).consumed.flatMap fun b =>
        [.uart_get b, .uart_put b]) ++
      [.uart_put 10] ++ radar_presence_task_set_mute false) ∧
    ((terminal_ui_readline (fun _ => 50) 3).stores.map Prod.snd =
      (terminal_ui_readline (fun _ => 50) 3).consumed.filter
        (fun b => !isspace b) ++ [0]) ∧
    ((terminal_ui_readline (fun _ => 50) 3).stores.map Prod.fst =
      List.range
        (((terminal_ui_readline (fun _ => 50) 3).consumed.filter
          (fun b => !isspace b)).length + 1)) ∧
    ∀ x ∈ (terminal_ui_readline (fun _ => 50) 3).consumed.dropLast, x ≠ 13 :=
  terminal_ui_readline_line_edit.2.2.2 (fun _ => 50) 3 (by decide)

/-- C9: for every positive maxlength and every input stream, all buffer
writes of `terminal_ui_readline` — the null terminator included — land at
indices strictly below maxlength, the loop consumes at most
maxlength − 1 bytes, and at most maxlength bytes are written in total. -/
theorem terminal_ui_readline_store_bounds (input : Nat → Nat) (m : Int)
    (hm : 0 < m) :
    (∀ p ∈ (terminal_ui_readline input m).stores, (p.1 : Int) < m) ∧
    (terminal_ui_readline input m).consumed.length ≤ m.toNat - 1 ∧
    (terminal_ui_readline input m).stores.length ≤ m.toNat := by
  have hm' : ¬ m ≤ 0 := by omega
  obtain ⟨h1, h2, h3⟩ := terminal_ui_readline_loop_stores input m.toNat 0 0 0
  have hlen := terminal_ui_readline_loop_length input m.toNat 0 0 0
  have hflen : ((terminal_ui_readline_loop input 0 0 0 m.toNat).consumed.filter
        (fun b => !isspace b)).length ≤
      (terminal_ui_readline_loop input 0 0 0 m.toNat).consumed.length :=
    List.length_filter_le _ _
  have hstlen : (terminal_ui_readline_loop input 0 0 0 m.toNat).stores.length =
      ((terminal_ui_readline_loop input 0 0 0 m.toNat).consumed.filter
        (fun b => !isspace b)).length := by
    rw [← h1, List.length_map]
  refine ⟨?_, ?_, ?_⟩
  · intro p hp
    simp only [terminal_ui_readline, hm', if_false, ite_false,
      List.mem_append, List.mem_singleton] at hp
    rcases hp with hp | hp
    · have hmem : p.1 ∈
          (terminal_ui_readline_loop input 0 0 0 m.toNat).stores.map Prod.fst :=
        List.mem_map_of_mem _ hp
      rw [h2] at hmem
      have := List.mem_range'_1.mp hmem
      omega
    · have : p.1 = (terminal_ui_readline_loop input 0 0 0 m.toNat).finalI := by
        rw [hp]
      rw [h3] at this
      omega
  · simp only [terminal_ui_readline, hm', if_false, ite_false]
    exact hlen
  · simp only [terminal_ui_readline, hm', if_false, ite_false,
      List.length_append, List.length_singleton]
    omega

/-- Witness for C9 at the constant stream of the byte 48 and
maxlength 5. -/
theorem terminal_ui_readline_store_bounds_witness :
    (∀ p ∈ (terminal_ui_readline (fun _ => 48) 5).stores, (p.1 : Int) < 5) ∧
    (terminal_ui_readline (fun _ => 48) 5).consumed.length ≤
      (5 : Int).toNat - 1 ∧
    (terminal_ui_readline (fun _ => 48) 5).stores.length ≤ (5 : Int).toNat :=
  terminal_ui_readline_store_bounds (fun _ => 48) 5 (by decide)

/-- The processing loop contains no action beyond process, delay, print
and halt, so a predicate false on those four counts zero over it. -/
theorem radar_task_loop_countP (env : RadarEnv) (p : Action → Bool)
    (hproc : ∀ t r, p (.process t r) = false)
    (hdelay : ∀ ms, p (.delay ms) = false)
    (hprint : ∀ l, p (.print l) = false)
    (hhalt : p .halt = false) :
    ∀ fuel k, (radar_task_loop env k fuel).countP p = 0 := by
  intro fuel
  induction fuel with
  | zero => intro k; simp [radar_task_loop]
  | succ n ih =>
    intro k
    by_cases h : env.process_r k = 0 <;>
      simp [radar_task_loop, MTB_RADAR_SENSING_SUCCESS, h, List.countP_cons,
        hproc, hdelay, hprint, hhalt, ih (k + 1)]

/-- The processing loop halts exactly when some process call within its
fuel fails. -/
theorem radar_task_loop_halt_mem (env : RadarEnv) :
    ∀ fuel k, Action.halt ∈ radar_task_loop env k fuel ↔
      ∃ j < fuel, env.process_r (k + j) ≠ 0 := by
  intro fuel
  induction fuel with
  | zero => intro k; simp [radar_task_loop]
  | succ n ih =>
    intro k
    by_cases h : env.process_r k = 0
    · simp only [radar_task_loop, MTB_RADAR_SENSING_SUCCESS, h, ne_eq,
        not_true_eq_false, if_false, ite_false, List.mem_cons,
        List.not_mem_nil, or_false]
      simp only [ih (k + 1)]
      constructor
      · rintro (h0 | h0 | ⟨j, hj, hne⟩)
        · exact absurd h0 (by simp)
        · exact absurd h0 (by simp)
        · refine ⟨j + 1, by omega, ?_⟩
          have he : k + (j + 1) = k + 1 + j := by omega
          rwa [he]
      · rintro ⟨j, hj, hne⟩
        match j with
        | 0 => simp at hne; exact absurd h (by simpa using hne)
        | j + 1 =>
          refine Or.inr (Or.inr ⟨j, by omega, ?_⟩)
          have he : k + 1 + j = k + (j + 1) := by omega
          rwa [he]
    · constructor
      · intro _
        exact ⟨0, by omega, by simpa using h⟩
      · intro _
        simp [radar_task_loop, MTB_RADAR_SENSING_SUCCESS, h]

/-- If the bring-up succeeded and the process calls before `n` succeed
but the `n`-th fails, the processing loop runs up to `n` and ends with
the failing process call, the diagnostic print and the halt. -/
theorem radar_task_loop_first_failure (env : RadarEnv) :
    ∀ fuel k n, k ≤ n → n < k + fuel →
      (∀ j, k ≤ j → j < n → env.process_r j = 0) → env.process_r n ≠ 0 →
      ∃ p, radar_task_loop env k fuel =
        p ++ [.process n (env.process_r n),
              .print (.text "ifx_radar_sensing_process error"), .halt] := by
  intro fuel
  induction fuel with
  | zero => intro k n h1 h2 _ _; omega
  | succ m ih =>
    intro k n h1 h2 hok hfail
    by_cases hkn : k = n
    · subst hkn
      refine ⟨[], ?_⟩
      simp [radar_task_loop, MTB_RADAR_SENSING_SUCCESS, hfail]
    · have hk : env.process_r k = 0 := hok k le_rfl (by omega)
      obtain ⟨p, hp⟩ := ih (k + 1) n (by omega) (by omega)
        (fun j hj1 hj2 => hok j (by omega) hj2) hfail
      refine ⟨.process k (env.process_r k) :: .delay 2 :: p, ?_⟩
      simp [radar_task_loop, MTB_RADAR_SENSING_SUCCESS, hk, hp]

set_option maxHeartbeats 2000000 in
/-- C7: the trace of `radar_task` is halt-free exactly when every checked
bring-up call and every process call within the fuel succeeded (so every
bring-up failure halts); no bring-up call is ever retried; an engine-init
failure prints the diagnostic and halts without any callback
registration, parameter set, enable or process call ever occurring; and
after a successful bring-up the first process failure ends the trace with
the failing call, the diagnostic line and the halt. -/
theorem radar_task_fatal_error_handling (env : RadarEnv) (fuel : Nat) :
    (Action.halt ∉ radar_task env fuel ↔ radar_task_ok env fuel = true) ∧
    ((radar_task env fuel).countP is_sensing_init ≤ 1 ∧
     (radar_task env fuel).countP is_register_callback ≤ 1 ∧
     (radar_task env fuel).countP
       (is_set_parameter "radar_presence_range_max") ≤ 1 ∧
     (radar_task env fuel).countP
       (is_set_parameter "radar_presence_sensitivity") ≤ 1 ∧
     (radar_task env fuel).countP is_enable ≤ 1 ∧
     (radar_task env fuel).countP is_spi_init ≤ 1) ∧
    (env.init_mutex_r = 0 → env.gpio_init_r .red = 0 →
     env.gpio_init_r .green = 0 → env.gpio_init_r .blue = 0 →
     env.spi_init_r = 0 → env.spi_set_frequency_r = 0 →
     env.sensing_init_r ≠ 0 →
      radar_task env fuel =
        [.init_mutex 0,
         .gpio_init .red LED_STATE_OFF 0,
         .gpio_init .green LED_STATE_OFF 0,
         .gpio_init .blue LED_STATE_OFF 0,
         .gpio_init .reset 1 (env.gpio_init_r .reset),
         .gpio_init .ldo_en 1 (env.gpio_init_r .ldo_en),
         .gpio_init .irq 0 (env.gpio_init_r .irq),
         .gpio_init .spi_cs 1 (env.gpio_init_r .spi_cs),
         .spi_init 0,
         .spi_set_frequency SPI_FREQUENCY 0,
         .sensing_init env.sensing_init_r,
         .print (.text "ifx_radar_sensing_init error - Radar Wingboard not connected?"),
         .halt] ∧
      (∀ r, Action.register_callback r ∉ radar_task env fuel) ∧
      (∀ n v r, Action.set_parameter n v r ∉ radar_task env fuel) ∧
      (∀ r, Action.enable r ∉ radar_task env fuel) ∧
      ∀ t r, Action.process t r ∉ radar_task env fuel) ∧
    (env.init_mutex_r = 0 → env.gpio_init_r .red = 0 →
     env.gpio_init_r .green = 0 → env.gpio_init_r .blue = 0 →
     env.spi_init_r = 0 → env.spi_set_frequency_r = 0 →
     env.sensing_init_r = 0 → env.register_callback_r = 0 →
     env.set_parameter_r "radar_presence_range_max" "1.0" = 0 →
     env.set_parameter_r "radar_presence_sensitivity" "medium" = 0 →
     env.enable_r = 0 →
     ∀ n, n < fuel → (∀ j, j < n → env.process_r j = 0) →
      env.process_r n ≠ 0 →
      ∃ p, radar_task env fuel =
        p ++ [.process n (env.process_r n),
              .print (.text "ifx_radar_sensing_process error"), .halt]) := by
  refine ⟨?_, ?_, ?_, ?_⟩
  · simp only [radar_task]
    split_ifs with h1 h2 h3 h4 h5 h6 h7 h8 h9 h10 h11 <;>
      simp_all [radar_task_ok, radar_task_loop_halt_mem, List.all_eq_true,
        List.mem_range, CY_RSLT_SUCCESS, MTB_RADAR_SENSING_SUCCESS]
  · have hl := fun p hp hd hpr hh =>
      radar_task_loop_countP env p hp hd hpr hh fuel 0
    have hl1 := hl is_sensing_init (by intro t r; rfl) (by intro ms; rfl)
      (by intro l; rfl) rfl
    have hl2 := hl is_register_callback (by intro t r; rfl) (by intro ms; rfl)
      (by intro l; rfl) rfl
    have hl3 := hl (is_set_parameter "radar_presence_range_max")
      (by intro t r; rfl) (by intro ms; rfl) (by intro l; rfl) rfl
    have hl4 := hl (is_set_parameter "radar_presence_sensitivity")
      (by intro t r; rfl) (by intro ms; rfl) (by intro l; rfl) rfl
    have hl5 := hl is_enable (by intro t r; rfl) (by intro ms; rfl)
      (by intro l; rfl) rfl
    have hl6 := hl is_spi_init (by intro t r; rfl) (by intro ms; rfl)
      (by intro l; rfl) rfl
    simp only [radar_task]
    split_ifs <;>
      simp [List.countP_cons, List.countP_append, is_sensing_init,
        is_register_callback, is_set_parameter, is_enable, is_spi_init,
        hl1, hl2, hl3, hl4, hl5, hl6]
  · intro h1 h2 h3 h4 h5 h6 h7
    have htrace : radar_task env fuel =
        [.init_mutex 0,
         .gpio_init .red LED_STATE_OFF 0,
         .gpio_init .green LED_STATE_OFF 0,
         .gpio_init .blue LED_STATE_OFF 0,
         .gpio_init .reset 1 (env.gpio_init_r .reset),
         .gpio_init .ldo_en 1 (env.gpio_init_r .ldo_en),
         .gpio_init .irq 0 (env.gpio_init_r .irq),
         .gpio_init .spi_cs 1 (env.gpio_init_r .spi_cs),
         .spi_init 0,
         .spi_set_frequency SPI_FREQUENCY 0,
         .sensing_init env.sensing_init_r,
         .print (.text "ifx_radar_sensing_init error - Radar Wingboard not connected?"),
         .halt] := by
      simp [radar_task, h1, h2, h3, h4, h5, h6, h7, CY_RSLT_SUCCESS,
        MTB_RADAR_SENSING_SUCCESS]
    refine ⟨htrace, ?_, ?_, ?_, ?_⟩ <;> (rw [htrace]; simp)
  · intro h1 h2 h3 h4 h5 h6 h7 h8 h9 h10 h11 n hn hok hfail
    have htrace : radar_task env fuel =
        [.init_mutex 0,
         .gpio_init .red LED_STATE_OFF 0,
         .gpio_init .green LED_STATE_OFF 0,
         .gpio_init .blue LED_STATE_OFF 0,
         .gpio_init .reset 1 (env.gpio_init_r .reset),
         .gpio_init .ldo_en 1 (env.gpio_init_r .ldo_en),
         .gpio_init .irq 0 (env.gpio_init_r .irq),
         .gpio_init .spi_cs 1 (env.gpio_init_r .spi_cs),
         .spi_init 0,
         .spi_set_frequency SPI_FREQUENCY 0,
         .sensing_init 0,
         .register_callback 0,
         .set_parameter "radar_presence_range_max" "1.0" 0,
         .set_parameter "radar_presence_sensitivity" "medium" 0,
         .enable 0] ++ radar_task_loop env 0 fuel := by
      simp [radar_task, h1, h2, h3, h4, h5, h6, h7, h8, h9, h10, h11,
        CY_RSLT_SUCCESS, MTB_RADAR_SENSING_SUCCESS]
    obtain ⟨p, hp⟩ := radar_task_loop_first_failure env fuel 0 n
      (Nat.zero_le n) (by omega) (fun j _ hj2 => hok j hj2) hfail
    refine ⟨[.init_mutex 0,
         .gpio_init .red LED_STATE_OFF 0,
         .gpio_init .green LED_STATE_OFF 0,
         .gpio_init .blue LED_STATE_OFF 0,
         .gpio_init .reset 1 (env.gpio_init_r .reset),
         .gpio_init .ldo_en 1 (env.gpio_init_r .ldo_en),
         .gpio_init .irq 0 (env.gpio_init_r .irq),
         .gpio_init .spi_cs 1 (env.gpio_init_r .spi_cs),
         .spi_init 0,
         .spi_set_frequency SPI_FREQUENCY 0,
         .sensing_init 0,
         .register_callback 0,
         .set_parameter "radar_presence_range_max" "1.0" 0,
         .set_parameter "radar_presence_sensitivity" "medium" 0,
         .enable 0] ++ p, ?_⟩
    rw [htrace, hp, List.append_assoc]

/-- Witness for C7: a concrete engine-init failure (status 5) yields
exactly the diagnostic-and-halt trace with no subsequent engine calls,
and a concrete process failure (status 7 on call 1 after a successful
call 0) ends the trace with the failing call, the diagnostic and the
halt. -/
theorem radar_task_fatal_error_handling_witness :
    (radar_task ⟨0, fun _ => 0, 0, 0, 5, 0, fun _ _ => 0, 0, fun _ => 0⟩ 0 =
      [.init_mutex 0,
       .gpio_init .red LED_STATE_OFF 0,
       .gpio_init .green LED_STATE_OFF 0,
       .gpio_init .blue LED_STATE_OFF 0,
       .gpio_init .reset 1 0,
       .gpio_init .ldo_en 1 0,
       .gpio_init .irq 0 0,
       .gpio_init .spi_cs 1 0,
       .spi_init 0,
       .spi_set_frequency SPI_FREQUENCY 0,
       .sensing_init 5,
       .print (.text "ifx_radar_sensing_init error - Radar Wingboard not connected?"),
       .halt] ∧
     (∀ r, Action.register_callback r ∉
        radar_task ⟨0, fun _ => 0, 0, 0, 5, 0, fun _ _ => 0, 0, fun _ => 0⟩ 0) ∧
     (∀ n v r, Action.set_parameter n v r ∉
        radar_task ⟨0, fun _ => 0, 0, 0, 5, 0, fun _ _ => 0, 0, fun _ => 0⟩ 0) ∧
     (∀ r, Action.enable r ∉
        radar_task ⟨0, fun _ => 0, 0, 0, 5, 0, fun _ _ => 0, 0, fun _ => 0⟩ 0) ∧
     ∀ t r, Action.process t r ∉
        radar_task ⟨0, fun _ => 0, 0, 0, 5, 0, fun _ _ => 0, 0, fun _ => 0⟩ 0) ∧
    ∃ p, radar_task
        ⟨0, fun _ => 0, 0, 0, 0, 0, fun _ _ => 0, 0,
         fun k => if k = 1 then 7 else 0⟩ 3 =
      p ++ [.process 1 7,
            .print (.text "ifx_radar_sensing_process error"), .halt] :=
  ⟨(radar_task_fatal_error_handling
      ⟨0, fun _ => 0, 0, 0, 5, 0, fun _ _ => 0, 0, fun _ => 0⟩ 0).2.2.1
      rfl rfl rfl rfl rfl rfl (by decide),
   (radar_task_fatal_error_handling
      ⟨0, fun _ => 0, 0, 0, 0, 0, fun _ _ => 0, 0,
       fun k => if k = 1 then 7 else 0⟩ 3).2.2.2
      rfl rfl rfl rfl rfl rfl rfl rfl rfl rfl rfl 1 (by decide)
      (by decide) (by decide)⟩

/-- C4: for every PresenceIn event the callback turns the presence
indicator on and the absence indicator off unconditionally, attempts the
console mutex with zero wait exactly once, and, exactly when that attempt
returns success, prints the one line carrying the timestamp in seconds
and the interval [distance − accuracy, distance + accuracy] and then
releases; on failure nothing is printed, nothing released, and no mutex
operation of the event can block. -/
theorem radar_sensing_callback_presence_in_contract
    (info : mtb_radar_sensing_event_info_t) (r : cy_rslt_t) (s : GpioState) :
    radar_sensing_callback .presence_in info r =
      [.gpio_write .red LED_STATE_ON, .gpio_write .green LED_STATE_OFF,
       .mutex_get 0 r] ++
      (if r = CY_RSLT_SUCCESS then
        [.print (.presence_in ((info.timestamp : ℚ) / 1000)
            (info.distance - info.accuracy) (info.distance + info.accuracy)),
         .mutex_release]
      else []) ∧
    (gpio_run s (radar_sensing_callback .presence_in info r)).red =
      LED_STATE_ON ∧
    (gpio_run s (radar_sensing_callback .presence_in info r)).green =
      LED_STATE_OFF ∧
    console_lines (radar_sensing_callback .presence_in info r) =
      (if r = CY_RSLT_SUCCESS then
        [ConsoleLine.presence_in ((info.timestamp : ℚ) / 1000)
          (info.distance - info.accuracy) (info.distance + info.accuracy)]
      else []) ∧
    ((radar_sensing_callback .presence_in info r).count .mutex_release =
      if r = CY_RSLT_SUCCESS then 1 else 0) ∧
    (radar_sensing_callback .presence_in info r).all nonblocking = true := by
  by_cases h : r = CY_RSLT_SUCCESS <;>
    simp [radar_sensing_callback, gpio_run, gpio_apply, console_lines, h,
      nonblocking, LED_STATE_ON, LED_STATE_OFF]

/-- C5: for the scripted sequence PresenceIn(distance 2.0, accuracy 0.3)
then PresenceOut, the presence indicator is on after the first event and
off after the second, the absence indicator off then on, and the console
lines are the PresenceIn line (interval [1.7, 2.3]) when the first
zero-wait acquire succeeds followed by the PresenceOut line when the
second succeeds — so both lines in order normally, and only the second
line when the first acquire fails — while no mutex operation of either
event can block. -/
theorem radar_sensing_callback_scripted_sequence
    (ts1 ts2 : Nat) (g1 g2 : cy_rslt_t) (s : GpioState) :
    (gpio_run s (radar_sensing_callback .presence_in ⟨ts1, 2, 3/10⟩ g1)).red =
      LED_STATE_ON ∧
    (gpio_run s (radar_sensing_callback .presence_in ⟨ts1, 2, 3/10⟩ g1)).green =
      LED_STATE_OFF ∧
    (gpio_run (gpio_run s (radar_sensing_callback .presence_in ⟨ts1, 2, 3/10⟩ g1))
        (radar_sensing_callback .presence_out ⟨ts2, 0, 0⟩ g2)).red =
      LED_STATE_OFF ∧
    (gpio_run (gpio_run s (radar_sensing_callback .presence_in ⟨ts1, 2, 3/10⟩ g1))
        (radar_sensing_callback .presence_out ⟨ts2, 0, 0⟩ g2)).green =
      LED_STATE_ON ∧
    console_lines (radar_sensing_callback .presence_in ⟨ts1, 2, 3/10⟩ g1 ++
        radar_sensing_callback .presence_out ⟨ts2, 0, 0⟩ g2) =
      (if g1 = CY_RSLT_SUCCESS then
        [ConsoleLine.presence_in ((ts1 : ℚ) / 1000) (17 / 10) (23 / 10)]
      else []) ++
      (if g2 = CY_RSLT_SUCCESS then
        [ConsoleLine.presence_out ((ts2 : ℚ) / 1000)]
      else []) ∧
    (radar_sensing_callback .presence_in ⟨ts1, 2, 3/10⟩ g1 ++
        radar_sensing_callback .presence_out ⟨ts2, 0, 0⟩ g2).all nonblocking =
      true := by
  by_cases h1 : g1 = CY_RSLT_SUCCESS <;> by_cases h2 : g2 = CY_RSLT_SUCCESS <;>
    simp [radar_sensing_callback, gpio_run, gpio_apply, console_lines, h1, h2,
      nonblocking, LED_STATE_ON, LED_STATE_OFF] <;> norm_num

/-- C10: for every event other than PresenceIn and PresenceOut the
callback performs no action at all: no indicator write, no mutex
operation, no print. -/
theorem radar_sensing_callback_other_events_noop
    (e : mtb_radar_sensing_event_t) (info : mtb_radar_sensing_event_info_t)
    (r : cy_rslt_t) (h1 : e ≠ .presence_in) (h2 : e ≠ .presence_out) :
    radar_sensing_callback e info r = [] := by
  cases e <;> simp_all [radar_sensing_callback]

/-- Witness for C10 at the concrete event CounterOccupied. -/
theorem radar_sensing_callback_other_events_noop_witness :
    radar_sensing_callback .counter_occupied ⟨0, 0, 0⟩ 0 = [] :=
  radar_sensing_callback_other_events_noop .counter_occupied ⟨0, 0, 0⟩ 0
    (by decide) (by decide)

/-- C1 (the code violates the pairing): called with maxlength = 0,
`terminal_ui_readline` mutes — a successful console-mutex acquire with an
infinite wait — and then returns without the matching release, so the
operation ends with one hold still outstanding. -/
theorem terminal_ui_readline_mute_leak :
    (terminal_ui_readline (fun _ => 49) 0).actions =
      [.mutex_get CY_RTOS_NEVER_TIMEOUT CY_RSLT_SUCCESS] ∧
    mutex_outstanding (terminal_ui_readline (fun _ => 49) 0).actions = 1 := by
  decide

/-- C2 (counterexample): with every external call succeeding, the
bring-up trace's parameter-setting actions are exactly the maximum
presence range set to "1.0" and the sensitivity set to "medium" — the
range is never set to the documented default "2.0". -/
theorem radar_task_sets_range_one_not_two :
    ((radar_task ⟨0, fun _ => 0, 0, 0, 0, 0, fun _ _ => 0, 0, fun _ => 0⟩ 0).filter
        (fun a => match a with | .set_parameter _ _ _ => true | _ => false)) =
      [.set_parameter "radar_presence_range_max" "1.0" 0,
       .set_parameter "radar_presence_sensitivity" "medium" 0] ∧
    Action.set_parameter "radar_presence_range_max" "2.0" 0 ∉
      radar_task ⟨0, fun _ => 0, 0, 0, 0, 0, fun _ _ => 0, 0, fun _ => 0⟩ 0 := by
  decide

/-- C2 (amended): under a fully successful bring-up the Sensing Bridge
registers the callback, sets the maximum presence range to "1.0" (not
the documented default 2.0) and the sensitivity to its default "medium",
in that order, and then enables the context before entering the
processing loop. -/
theorem radar_task_bringup_trace (env : RadarEnv) (fuel : Nat)
    (h1 : env.init_mutex_r = 0) (h2 : env.gpio_init_r .red = 0)
    (h3 : env.gpio_init_r .green = 0) (h4 : env.gpio_init_r .blue = 0)
    (h5 : env.spi_init_r = 0) (h6 : env.spi_set_frequency_r = 0)
    (h7 : env.sensing_init_r = 0) (h8 : env.register_callback_r = 0)
    (h9 : env.set_parameter_r "radar_presence_range_max" "1.0" = 0)
    (h10 : env.set_parameter_r "radar_presence_sensitivity" "medium" = 0)
    (h11 : env.enable_r = 0) :
    radar_task env fuel =
      [.init_mutex 0,
       .gpio_init .red LED_STATE_OFF 0,
       .gpio_init .green LED_STATE_OFF 0,
       .gpio_init .blue LED_STATE_OFF 0,
       .gpio_init .reset 1 (env.gpio_init_r .reset),
       .gpio_init .ldo_en 1 (env.gpio_init_r .ldo_en),
       .gpio_init .irq 0 (env.gpio_init_r .irq),
       .gpio_init .spi_cs 1 (env.gpio_init_r .spi_cs),
       .spi_init 0,
       .spi_set_frequency SPI_FREQUENCY 0,
       .sensing_init 0,
       .register_callback 0,
       .set_parameter "radar_presence_range_max" "1.0" 0,
       .set_parameter "radar_presence_sensitivity" "medium" 0,
       .enable 0] ++ radar_task_loop env 0 fuel := by
  simp [radar_task, h1, h2, h3, h4, h5, h6, h7, h8, h9, h10, h11,
    CY_RSLT_SUCCESS, MTB_RADAR_SENSING_SUCCESS]

/-- The line editor prints no console line: its trace is only mutex,
UART-read and UART-echo actions. -/
theorem terminal_ui_readline_no_print (input : Nat → Nat) (m : Int)
    (l : ConsoleLine) :
    Action.print l ∉ (terminal_ui_readline input m).actions := by
  by_cases hm : m ≤ 0 <;>
    simp [terminal_ui_readline, hm, radar_presence_task_set_mute]

/-- The line editor never halts. -/
theorem terminal_ui_readline_no_halt (input : Nat → Nat) (m : Int) :
    Action.halt ∉ (terminal_ui_readline input m).actions := by
  by_cases hm : m ≤ 0 <;>
    simp [terminal_ui_readline, hm, radar_presence_task_set_mute]

/-- C8: for every key other than '?' (63), 'r' (114) and 's' (115), the
Configurator's dispatch performs exactly the UART read of the key and the
one-line help hint — no engine set/get-parameter call, no indicator
write — and the LED state is left unchanged. -/
theorem radar_presence_terminal_ui_unknown_key (env : UiEnv)
    (input : Nat → Nat) (pos : Nat) (h1 : input pos ≠ 63)
    (h2 : input pos ≠ 114) (h3 : input pos ≠ 115) :
    radar_presence_terminal_ui_step env input pos =
      ([.uart_get (input pos),
        .print (.text "Press '?' to list all radar presence settings")],
       pos + 1) ∧
    (∀ a ∈ (radar_presence_terminal_ui_step env input pos).1,
      (∀ n v r, a ≠ .set_parameter n v r) ∧ (∀ n v, a ≠ .get_parameter n v) ∧
      ∀ p v, a ≠ .gpio_write p v) ∧
    ∀ s, gpio_run s (radar_presence_terminal_ui_step env input pos).1 = s := by
  have hstep : radar_presence_terminal_ui_step env input pos =
      ([.uart_get (input pos),
        .print (.text "Press '?' to list all radar presence settings")],
       pos + 1) := by
    simp [radar_presence_terminal_ui_step, terminal_ui_info, h1, h2, h3]
  refine ⟨hstep, ?_, ?_⟩
  · rw [hstep]
    intro a ha
    rcases List.mem_cons.mp ha with ha | ha
    · subst ha; simp
    · rcases List.mem_singleton.mp ha with rfl
      simp
  · intro s
    rw [hstep]
    simp [gpio_run, gpio_apply]

/-- Witness for C8 at the key 'x' (120). -/
theorem radar_presence_terminal_ui_unknown_key_witness :
    radar_presence_terminal_ui_step ⟨fun _ => "", fun _ _ => 0⟩ (fun _ => 120) 0 =
      ([.uart_get ((fun _ => (120 : Nat)) 0),
        .print (.text "Press '?' to list all radar presence settings")],
       0 + 1) ∧
    (∀ a ∈ (radar_presence_terminal_ui_step ⟨fun _ => "", fun _ _ => 0⟩
        (fun _ => 120) 0).1,
      (∀ n v r, a ≠ .set_parameter n v r) ∧ (∀ n v, a ≠ .get_parameter n v) ∧
      ∀ p v, a ≠ .gpio_write p v) ∧
    ∀ s, gpio_run s (radar_presence_terminal_ui_step ⟨fun _ => "", fun _ _ => 0⟩
        (fun _ => 120) 0).1 = s :=
  radar_presence_terminal_ui_unknown_key ⟨fun _ => "", fun _ _ => 0⟩
    (fun _ => 120) 0 (by decide) (by decide) (by decide)

/-- C6: after an 'r' (114) or 's' (115) command, the Configurator prints
OK exactly when the engine's set_parameter call on the read value returns
MTB_RADAR_SENSING_SUCCESS and ERROR exactly otherwise; the dispatch never
halts, and the command loop goes on to its next iteration. -/
theorem radar_presence_terminal_ui_set_result (env : UiEnv)
    (input : Nat → Nat) (pos fuel : Nat)
    (hk : input pos = 114 ∨ input pos = 115) :
    (Action.print (.text "OK") ∈ (radar_presence_terminal_ui_step env input pos).1 ↔
      env.set_parameter_r
        (if input pos = 114 then "radar_presence_range_max"
         else "radar_presence_sensitivity")
        (bytesToString (terminal_ui_readline (fun k => input (pos + 1 + k))
          IFX_RADAR_SENSING_VALUE_MAXLENGTH).value) = MTB_RADAR_SENSING_SUCCESS) ∧
    (Action.print (.text "ERROR") ∈ (radar_presence_terminal_ui_step env input pos).1 ↔
      env.set_parameter_r
        (if input pos = 114 then "radar_presence_range_max"
         else "radar_presence_sensitivity")
        (bytesToString (terminal_ui_readline (fun k => input (pos + 1 + k))
          IFX_RADAR_SENSING_VALUE_MAXLENGTH).value) ≠ MTB_RADAR_SENSING_SUCCESS) ∧
    Action.halt ∉ (radar_presence_terminal_ui_step env input pos).1 ∧
    radar_presence_terminal_ui_loop env input pos (fuel + 1) =
      (radar_presence_terminal_ui_step env input pos).1 ++
        radar_presence_terminal_ui_loop env input
          (radar_presence_terminal_ui_step env input pos).2 fuel := by
  have hloop : radar_presence_terminal_ui_loop env input pos (fuel + 1) =
      (radar_presence_terminal_ui_step env input pos).1 ++
        radar_presence_terminal_ui_loop env input
          (radar_presence_terminal_ui_step env input pos).2 fuel := rfl
  have hnp := terminal_ui_readline_no_print (fun k => input (pos + 1 + k))
    IFX_RADAR_SENSING_VALUE_MAXLENGTH
  have hnh := terminal_ui_readline_no_halt (fun k => input (pos + 1 + k))
    IFX_RADAR_SENSING_VALUE_MAXLENGTH
  rcases hk with hk | hk <;>
    by_cases hr : env.set_parameter_r
        (if input pos = 114 then "radar_presence_range_max"
         else "radar_presence_sensitivity")
        (bytesToString (terminal_ui_readline (fun k => input (pos + 1 + k))
          IFX_RADAR_SENSING_VALUE_MAXLENGTH).value) = MTB_RADAR_SENSING_SUCCESS <;>
      simp_all [radar_presence_terminal_ui_step, terminal_ui_print_result]

/-- Witness for C6: a concrete 'r' command whose set_parameter result is
the error status 3 prints ERROR, not OK, does not halt, and the loop
continues. -/
theorem radar_presence_terminal_ui_set_result_witness :
    (Action.print (.text "OK") ∈ (radar_presence_terminal_ui_step
        ⟨fun _ => "", fun _ _ => 3⟩ (fun _ => 114) 0).1 ↔
      (fun _ _ => (3 : cy_rslt_t))
        (if (fun _ => (114 : Nat)) 0 = 114 then "radar_presence_range_max"
         else "radar_presence_sensitivity")
        (bytesToString (terminal_ui_readline
          (fun k => (fun _ => (114 : Nat)) (0 + 1 + k))
          IFX_RADAR_SENSING_VALUE_MAXLENGTH).value) = MTB_RADAR_SENSING_SUCCESS) ∧
    (Action.print (.text "ERROR") ∈ (radar_presence_terminal_ui_step
        ⟨fun _ => "", fun _ _ => 3⟩ (fun _ => 114) 0).1 ↔
      (fun _ _ => (3 : cy_rslt_t))
        (if (fun _ => (114 : Nat)) 0 = 114 then "radar_presence_range_max"
         else "radar_presence_sensitivity")
        (bytesToString (terminal_ui_readline
          (fun k => (fun _ => (114 : Nat)) (0 + 1 + k))
          IFX_RADAR_SENSING_VALUE_MAXLENGTH).value) ≠ MTB_RADAR_SENSING_SUCCESS) ∧
    Action.halt ∉ (radar_presence_terminal_ui_step
      ⟨fun _ => "", fun _ _ => 3⟩ (fun _ => 114) 0).1 ∧
    radar_presence_terminal_ui_loop ⟨fun _ => "", fun _ _ => 3⟩
        (fun _ => 114) 0 (1 + 1) =
      (radar_presence_terminal_ui_step ⟨fun _ => "", fun _ _ => 3⟩
        (fun _ => 114) 0).1 ++
        radar_presence_terminal_ui_loop ⟨fun _ => "", fun _ _ => 3⟩
          (fun _ => 114)
          (radar_presence_terminal_ui_step ⟨fun _ => "", fun _ _ => 3⟩
            (fun _ => 114) 0).2 1 :=
  radar_presence_terminal_ui_set_result ⟨fun _ => "", fun _ _ => 3⟩
    (fun _ => 114) 0 1 (Or.inl rfl)

/-- Witness for the amended C2 at the all-success environment. -/
theorem radar_task_bringup_trace_witness :
    radar_task ⟨0, fun _ => 0, 0, 0, 0, 0, fun _ _ => 0, 0, fun _ => 0⟩ 0 =
      [.init_mutex 0,
       .gpio_init .red LED_STATE_OFF 0,
       .gpio_init .green LED_STATE_OFF 0,
       .gpio_init .blue LED_STATE_OFF 0,
       .gpio_init .reset 1 0,
       .gpio_init .ldo_en 1 0,
       .gpio_init .irq 0 0,
       .gpio_init .spi_cs 1 0,
       .spi_init 0,
       .spi_set_frequency SPI_FREQUENCY 0,
       .sensing_init 0,
       .register_callback 0,
       .set_parameter "radar_presence_range_max" "1.0" 0,
       .set_parameter "radar_presence_sensitivity" "medium" 0,
       .enable 0] ++ radar_task_loop ⟨0, fun _ => 0, 0, 0, 0, 0, fun _ _ => 0, 0, fun _ => 0⟩ 0 0 :=
  radar_task_bringup_trace ⟨0, fun _ => 0, 0, 0, 0, 0, fun _ _ => 0, 0, fun _ => 0⟩ 0
    rfl rfl rfl rfl rfl rfl rfl rfl rfl rfl rfl

end RadarPresence
